import Mathlib

/-!
# Verification of the hybrid JWT + session authentication subsystem

Shallow embedding of the session/token-refresh authentication flow of the
repository (lect90_HybridAuth-SessionJWT, lect108_Merge_GAuth and the
consolidated services document), together with theorems settling the
behavioural claims about it.

Conventions of the embedding:
- Machine rows (drizzle/schema.js) become Lean structures.
- The MySQL database becomes an explicit `Db` value threaded through the
  operations; drizzle select calls become pure lookups, insert and delete
  calls produce a new `Db`.
- `jsonwebtoken` signing is modelled symbolically: a `Jwt` records its
  payload, its expiry (seconds) and the secret it was signed with;
  verification succeeds exactly when the secret matches the configured one
  and the expiry has not passed.  This captures signature validity and
  expiry, the only two properties `jwt.verify` checks here.
- `zod` schema parsing and `argon2` hashing are external collaborators and
  enter as parameters (an `Except String` parse result, a hash function, a
  verify predicate), exactly at the library boundary.
- Store traffic of the middleware refresh flow is recorded as a `StoreOp`
  trace so that read-only behaviour is a provable statement, not a
  modelling artefact.
-/

namespace HybridAuth

/-! ## Constants (config/constants.js) -/

def MILLISECONDS_PER_SECOND : Nat := 1000

def SECONDS_PER_MINUTE : Nat := 60

def MINUTES_PER_HOUR : Nat := 60

def HOURS_PER_DAY : Nat := 24

def DAYS_PER_WEEK : Nat := 7

/-- ACCESS_TOKEN_EXPIRY = 15 * SECONDS_PER_MINUTE * MILLISECONDS_PER_SECOND (milliseconds). -/
def ACCESS_TOKEN_EXPIRY : Nat := 15 * SECONDS_PER_MINUTE * MILLISECONDS_PER_SECOND

/-- REFRESH_TOKEN_EXPIRY = DAYS_PER_WEEK * HOURS_PER_DAY * MINUTES_PER_HOUR * SECONDS_PER_MINUTE * MILLISECONDS_PER_SECOND (milliseconds). -/
def REFRESH_TOKEN_EXPIRY : Nat :=
  DAYS_PER_WEEK * HOURS_PER_DAY * MINUTES_PER_HOUR * SECONDS_PER_MINUTE *
    MILLISECONDS_PER_SECOND

/-! ## Data model (drizzle/schema.js) -/

/-- Row of usersTable: id, name, email (unique), password hash, email
verification flag.  Timestamps carry no behaviour in the flows under
study and are omitted. -/
structure UserRow where
  id : Nat
  name : String
  email : String
  password : String
  isEmailValid : Bool
deriving Repr, DecidableEq

/-- Row of sessionsTable: id, owning user, validity flag (default true),
optional device metadata. -/
structure SessionRow where
  id : Nat
  userId : Nat
  valid : Bool
  ip : Option String
  userAgent : Option String
deriving Repr, DecidableEq

/-- The relational store: both tables plus the autoincrement counters of
their primary keys. -/
structure Db where
  users : List UserRow
  sessions : List SessionRow
  nextUserId : Nat
  nextSessionId : Nat
deriving Repr, DecidableEq

/-! ## Token codec (jsonwebtoken at the boundary) -/

/-- Claim bag of a signed token.  JS claim objects are loosely typed, so
every field is optional; an access token populates id, name, email (and in
the consolidated version isEmailValid) plus sessionId, while a refresh
token populates only sessionId.  There is no kind tag. -/
structure JwtPayload where
  id : Option Nat
  name : Option String
  email : Option String
  isEmailValid : Option Bool
  sessionId : Option Nat
deriving Repr, DecidableEq

/-- A signed token: payload, expiry in seconds since epoch, and the secret
it was signed with (standing in for the HMAC signature: verification
against a secret succeeds exactly when the secrets agree). -/
structure Jwt where
  payload : JwtPayload
  exp : Nat
  secret : String
deriving Repr, DecidableEq

inductive JwtError
  | invalidSignature
  | expired
deriving Repr, DecidableEq

/-- jwt.sign with an expiresIn given in seconds. -/
def jwtSign (payload : JwtPayload) (expiresIn : Nat) (now : Nat) (secret : String) : Jwt :=
  { payload := payload, exp := now + expiresIn, secret := secret }

/-- jwt.verify: signature check against the configured secret, then expiry
check against the clock. -/
def jwtVerify (token : Jwt) (now : Nat) (secret : String) : Except JwtError JwtPayload :=
  if token.secret ≠ secret then .error .invalidSignature
  else if token.exp ≤ now then .error .expired
  else .ok token.payload

/-! ## Store primitives and the operation trace -/

/-- One database operation issued by the authentication code.  Reads carry
the key that was looked up, writes carry the row or key they touch. -/
inductive StoreOp
  | readSession (sessionId : Option Nat)
  | readUserById (userId : Nat)
  | readUserByEmail (email : String)
  | insertUser (row : UserRow)
  | insertSession (row : SessionRow)
  | deleteSession (sessionId : Nat)
deriving Repr, DecidableEq

/-- Whether an operation is a pure read. -/
def StoreOp.isRead : StoreOp → Bool
  | .readSession _ => true
  | .readUserById _ => true
  | .readUserByEmail _ => true
  | .insertUser _ => false
  | .insertSession _ => false
  | .deleteSession _ => false

/-- Effect of one operation on the store: reads change nothing, writes
update the corresponding table. -/
def applyOp (db : Db) : StoreOp → Db
  | .readSession _ => db
  | .readUserById _ => db
  | .readUserByEmail _ => db
  | .insertUser row =>
      { db with users := db.users ++ [row], nextUserId := db.nextUserId + 1 }
  | .insertSession row =>
      { db with sessions := db.sessions ++ [row], nextSessionId := db.nextSessionId + 1 }
  | .deleteSession sid =>
      { db with sessions := db.sessions.filter (fun s => s.id ≠ sid) }

def applyOps (db : Db) (ops : List StoreOp) : Db :=
  ops.foldl applyOp db

/-! ## Services shared by all versions (auth.services.js) -/

/-- getUserByEmail: select from usersTable where email = email. -/
def getUserByEmail (db : Db) (email : String) : Option UserRow :=
  db.users.find? (fun u => u.email = email)

/-- findUserById: select from usersTable where id = userId. -/
def findUserById (db : Db) (userId : Nat) : Option UserRow :=
  db.users.find? (fun u => u.id = userId)

/-- findSessionById: select from sessionsTable where id = sessionId. -/
def findSessionById (db : Db) (sessionId : Nat) : Option SessionRow :=
  db.sessions.find? (fun s => s.id = sessionId)

/-- Error raised by the storage driver.  duplicateEntry is the MySQL
ER_DUP_ENTRY fault produced when a unique index is violated; the
application code contains no handler or mapping for it. -/
inductive DbError
  | duplicateEntry (index : String)
deriving Repr, DecidableEq

/-- Result of $returningId(): a JS object holding only the generated id;
the other fields of the user object are absent (undefined). -/
structure JsUser where
  id : Nat
  name : Option String
  email : Option String
  isEmailValid : Option Bool
deriving Repr, DecidableEq

/-- createUser: insert into usersTable.  The unique index on users.email,
enforced by the database, rejects a duplicate with the raw driver fault;
the application performs no mapping of that fault.  On success the new row
has isEmailValid = false (the schema default) and only the id is returned. -/
def createUser (db : Db) (name email password : String) :
    Except DbError (JsUser × Db) :=
  match getUserByEmail db email with
  | some _ => .error (.duplicateEntry "users.email_unique")
  | none =>
      let uid := db.nextUserId
      .ok ({ id := uid, name := none, email := none, isEmailValid := none },
        { db with
            users := db.users ++
              [{ id := uid, name := name, email := email, password := password,
                 isEmailValid := false }],
            nextUserId := uid + 1 })

/-- createSession: insert into sessionsTable with validity defaulting to
true; returns the generated id. -/
def createSession (db : Db) (userId : Nat) (ip userAgent : Option String) :
    Nat × Db :=
  let sid := db.nextSessionId
  (sid,
    { db with
        sessions := db.sessions ++
          [{ id := sid, userId := userId, valid := true, ip := ip,
             userAgent := userAgent }],
        nextSessionId := sid + 1 })

/-- clearSession: delete from sessionsTable where id = sessionId. -/
def clearSession (db : Db) (sessionId : Nat) : Db :=
  { db with sessions := db.sessions.filter (fun s => s.id ≠ sessionId) }

/-- JS truthiness of the expression a || b over possibly-absent strings:
an absent or empty string falls through to b. -/
def jsOr (a b : Option String) : Option String :=
  match a with
  | some s => if s = "" then b else some s
  | none => b

/-- Set-Cookie side effects recorded on the response: res.cookie with a
maxAge, or res.clearCookie. -/
inductive CookieOp
  | set (name : String) (token : Jwt) (maxAge : Nat)
  | clear (name : String)
deriving Repr, DecidableEq

/-- Failure raised inside refreshTokens and caught by the middleware. -/
inductive RefreshError
  | tokenRejected (e : JwtError)
  | invalidSession
  | invalidUser
deriving Repr, DecidableEq

/-! ## lect90_HybridAuth-SessionJWT: services and middleware -/

namespace Lect90

open HybridAuth

/-- createAccessToken (lect90 services): signs id, name, email, sessionId
with expiresIn = ACCESS_TOKEN_EXPIRY / MILLISECONDS_PER_SECOND seconds. -/
def createAccessToken (id : Nat) (name email : String) (sessionId : Nat)
    (now : Nat) (secret : String) : Jwt :=
  jwtSign
    { id := some id, name := some name, email := some email,
      isEmailValid := none, sessionId := some sessionId }
    (ACCESS_TOKEN_EXPIRY / MILLISECONDS_PER_SECOND) now secret

/-- createRefreshToken (lect90 services): signs only sessionId with
expiresIn = REFRESH_TOKEN_EXPIRY / MILLISECONDS_PER_SECOND seconds. -/
def createRefreshToken (sessionId : Nat) (now : Nat) (secret : String) : Jwt :=
  jwtSign
    { id := none, name := none, email := none, isEmailValid := none,
      sessionId := some sessionId }
    (REFRESH_TOKEN_EXPIRY / MILLISECONDS_PER_SECOND) now secret

/-- refreshTokens (lect90 services): verify the refresh token, look up the
session it names, require the validity flag, look up the owning user, and
mint a fresh token pair.  The second component is the trace of store
operations the call issued (a select on sessions, then a select on users).
A lookup with an absent sessionId claim models eq(sessionsTable.id,
undefined), which matches no row. -/
def refreshTokens (db : Db) (refreshToken : Jwt) (now : Nat) (secret : String) :
    Except RefreshError (Jwt × Jwt × JwtPayload) × List StoreOp :=
  match jwtVerify refreshToken now secret with
  | .error e => (.error (.tokenRejected e), [])
  | .ok decodedToken =>
    let sessionLookup : Option SessionRow :=
      match decodedToken.sessionId with
      | none => none
      | some sid => findSessionById db sid
    let ops := [StoreOp.readSession decodedToken.sessionId]
    match sessionLookup with
    | none => (.error .invalidSession, ops)
    | some currentSession =>
      if !currentSession.valid then (.error .invalidSession, ops)
      else
        let ops := ops ++ [StoreOp.readUserById currentSession.userId]
        match findUserById db currentSession.userId with
        | none => (.error .invalidUser, ops)
        | some user =>
          let userInfo : JwtPayload :=
            { id := some user.id, name := some user.name,
              email := some user.email, isEmailValid := none,
              sessionId := some currentSession.id }
          let newAccessToken :=
            createAccessToken user.id user.name user.email currentSession.id
              now secret
          let newRefreshToken := createRefreshToken currentSession.id now secret
          (.ok (newAccessToken, newRefreshToken, userInfo), ops)

/-- Outcome of the verifyAuthentication middleware: the identity stored in
req.user, the response cookie operations, the store operations issued, and
whether next() was invoked. -/
structure MwResult where
  user : Option JwtPayload
  cookieOps : List CookieOp
  storeOps : List StoreOp
  calledNext : Bool
deriving Repr, DecidableEq

/-- Access-token branch of the middleware: when a cookie is present, try
verifyJWTToken and keep the decoded claims; a verification failure falls
through to the refresh branch. -/
def tryAccessToken (accessToken : Option Jwt) (now : Nat) (secret : String) :
    Option JwtPayload :=
  match accessToken with
  | none => none
  | some t =>
    match jwtVerify t now secret with
    | .ok decoded => some decoded
    | .error _ => none

/-- verifyAuthentication (middlewares/verify-auth.middleware.js): the
request-classification state machine.  Both cookies absent gives anonymous
with no effects; a verifying access token gives its claims with no store
traffic and no cookies; otherwise a present refresh token drives the
refresh flow, setting fresh cookies on success and clearing both cookies
on failure; a failed access token with no refresh token falls through to
anonymous with no effects.  Every path calls next(). -/
def verifyAuthentication (db : Db) (accessToken refreshToken : Option Jwt)
    (now : Nat) (secret : String) : MwResult :=
  if accessToken.isNone && refreshToken.isNone then
    { user := none, cookieOps := [], storeOps := [], calledNext := true }
  else
    match tryAccessToken accessToken now secret with
    | some decodedToken =>
        { user := some decodedToken, cookieOps := [], storeOps := [],
          calledNext := true }
    | none =>
      match refreshToken with
      | some rt =>
        match refreshTokens db rt now secret with
        | (.ok (newAccessToken, newRefreshToken, user), ops) =>
            { user := some user,
              cookieOps :=
                [ .set "access_token" newAccessToken ACCESS_TOKEN_EXPIRY,
                  .set "refresh_token" newRefreshToken REFRESH_TOKEN_EXPIRY ],
              storeOps := ops, calledNext := true }
        | (.error _, ops) =>
            { user := none,
              cookieOps := [ .clear "access_token", .clear "refresh_token" ],
              storeOps := ops, calledNext := true }
      | none =>
          { user := none, cookieOps := [], storeOps := [], calledNext := true }

end Lect90

/-! ## Controller-level modelling -/

/-- Parsed body accepted by loginUserSchema (trimmed valid email, password
of length at least 5).  The zod schema itself is library code; its outcome
enters the controllers as an Except value. -/
structure LoginData where
  email : String
  password : String
deriving Repr, DecidableEq

/-- Parsed body accepted by registerUserSchema (loginUserSchema extended
with a name of length 3 to 100). -/
structure RegData where
  name : String
  email : String
  password : String
deriving Repr, DecidableEq

/-- Observable response of a controller: flash messages queued, the
redirect target, the cookie operations, and emails handed to the mailer. -/
structure Response where
  flash : List (String × String)
  redirectTo : Option String
  cookieOps : List CookieOp
  emailsSent : List String
deriving Repr, DecidableEq

/-- Runtime failure escaping a controller: a TypeError from reading a
property of null, or an uncaught storage fault. -/
inductive JsError
  | typeErrorNullAccess
  | storage (e : DbError)
deriving Repr, DecidableEq

namespace Lect90

/-- postLogin (lect90 controller): guard on an existing identity, parse
the body, look up the user by email, verify the password hash, and on
success create a session inline, mint both tokens and set both cookies.
Both failure branches flash the same message and redirect to /login. -/
def postLogin (reqUser : Option JwtPayload) (parsed : Except String LoginData)
    (argonVerify : String → String → Bool) (db : Db) (ip ua : Option String)
    (now : Nat) (secret : String) : Response × Db :=
  match reqUser with
  | some _ =>
      ({ flash := [], redirectTo := some "/", cookieOps := [], emailsSent := [] }, db)
  | none =>
    match parsed with
    | .error errorMessage =>
        ({ flash := [("errors", errorMessage)], redirectTo := some "/login",
           cookieOps := [], emailsSent := [] }, db)
    | .ok data =>
      match getUserByEmail db data.email with
      | none =>
          ({ flash := [("errors", "Invalid User or Password")],
             redirectTo := some "/login", cookieOps := [], emailsSent := [] }, db)
      | some user =>
        if argonVerify user.password data.password = false then
          ({ flash := [("errors", "Invalid User or Password")],
             redirectTo := some "/login", cookieOps := [], emailsSent := [] }, db)
        else
          let sessionResult := createSession db user.id ip ua
          let accessToken :=
            createAccessToken user.id user.name user.email sessionResult.1 now secret
          let refreshToken := createRefreshToken sessionResult.1 now secret
          ({ flash := [], redirectTo := some "/",
             cookieOps :=
               [ .set "access_token" accessToken ACCESS_TOKEN_EXPIRY,
                 .set "refresh_token" refreshToken REFRESH_TOKEN_EXPIRY ],
             emailsSent := [] }, sessionResult.2)

/-- postRegister (lect90 controller): guard, parse, duplicate pre-check,
hash and create the user, then redirect to /login.  No session is created,
no token minted, no cookie set: this version has no auto-login. -/
def postRegister (reqUser : Option JwtPayload) (parsed : Except String RegData)
    (hash : String → String) (db : Db) : Except JsError (Response × Db) :=
  match reqUser with
  | some _ =>
      .ok ({ flash := [], redirectTo := some "/", cookieOps := [], emailsSent := [] }, db)
  | none =>
    match parsed with
    | .error errorMessage =>
        .ok ({ flash := [("errors", errorMessage)], redirectTo := some "/register",
               cookieOps := [], emailsSent := [] }, db)
    | .ok data =>
      match getUserByEmail db data.email with
      | some _ =>
          .ok ({ flash := [("errors", "User Already Exists.")],
                 redirectTo := some "/register", cookieOps := [], emailsSent := [] }, db)
      | none =>
        match createUser db data.name data.email (hash data.password) with
        | .error e => .error (.storage e)
        | .ok result =>
            .ok ({ flash := [], redirectTo := some "/login", cookieOps := [],
                   emailsSent := [] }, result.2)

/-- logoutUser (lect90 controller, identical in lect108 and the
consolidated services): reads req.user.sessionId without any guard, so an
anonymous request throws a TypeError before anything else happens; an
authenticated request deletes the session row, clears both cookies and
redirects to /login.  An identity without a sessionId claim passes
undefined to the delete, which matches no row. -/
def logoutUser (reqUser : Option JwtPayload) (db : Db) :
    Except JsError (Response × Db) :=
  match reqUser with
  | none => .error .typeErrorNullAccess
  | some u =>
    let db1 :=
      match u.sessionId with
      | some sid => clearSession db sid
      | none => db
    .ok ({ flash := [], redirectTo := some "/login",
           cookieOps := [ .clear "access_token", .clear "refresh_token" ],
           emailsSent := [] }, db1)

end Lect90

/-! ## Consolidated services document (src/unnamed/part_006) -/

namespace Part006

/-- createAccessToken (part_006 services): also embeds isEmailValid.  The
call sites pass possibly-absent name, email and isEmailValid fields, hence
the optional parameters. -/
def createAccessToken (id : Nat) (name email : Option String)
    (isEmailValid : Option Bool) (sessionId : Nat) (now : Nat)
    (secret : String) : Jwt :=
  jwtSign
    { id := some id, name := name, email := email,
      isEmailValid := isEmailValid, sessionId := some sessionId }
    (ACCESS_TOKEN_EXPIRY / MILLISECONDS_PER_SECOND) now secret

/-- createRefreshToken (part_006 services): same shape as the lect90 one. -/
def createRefreshToken (sessionId : Nat) (now : Nat) (secret : String) : Jwt :=
  jwtSign
    { id := none, name := none, email := none, isEmailValid := none,
      sessionId := some sessionId }
    (REFRESH_TOKEN_EXPIRY / MILLISECONDS_PER_SECOND) now secret

/-- refreshTokens (part_006 services): identical control flow to the
lect90 version, with isEmailValid additionally copied into the minted
claims. -/
def refreshTokens (db : Db) (refreshToken : Jwt) (now : Nat) (secret : String) :
    Except RefreshError (Jwt × Jwt × JwtPayload) × List StoreOp :=
  match jwtVerify refreshToken now secret with
  | .error e => (.error (.tokenRejected e), [])
  | .ok decodedToken =>
    let sessionLookup : Option SessionRow :=
      match decodedToken.sessionId with
      | none => none
      | some sid => findSessionById db sid
    let ops := [StoreOp.readSession decodedToken.sessionId]
    match sessionLookup with
    | none => (.error .invalidSession, ops)
    | some currentSession =>
      if !currentSession.valid then (.error .invalidSession, ops)
      else
        let ops := ops ++ [StoreOp.readUserById currentSession.userId]
        match findUserById db currentSession.userId with
        | none => (.error .invalidUser, ops)
        | some user =>
          let userInfo : JwtPayload :=
            { id := some user.id, name := some user.name,
              email := some user.email, isEmailValid := some user.isEmailValid,
              sessionId := some currentSession.id }
          let newAccessToken :=
            createAccessToken user.id (some user.name) (some user.email)
              (some user.isEmailValid) currentSession.id now secret
          let newRefreshToken := createRefreshToken currentSession.id now secret
          (.ok (newAccessToken, newRefreshToken, userInfo), ops)

/-- authenticateUser (part_006 services): create a session for the user,
mint an access token (falling back to the name and email arguments when
the user object lacks those fields, as after $returningId) and a refresh
token, and set both cookies with the two expiry constants as max-ages.
Returns the session id, the updated store and the cookie operations. -/
def authenticateUser (db : Db) (user : JsUser) (name email : Option String)
    (ip ua : Option String) (now : Nat) (secret : String) :
    Nat × Db × List CookieOp :=
  let sessionResult := createSession db user.id ip ua
  let accessToken :=
    createAccessToken user.id (jsOr user.name name) (jsOr user.email email)
      user.isEmailValid sessionResult.1 now secret
  let refreshToken := createRefreshToken sessionResult.1 now secret
  (sessionResult.1, sessionResult.2,
    [ .set "access_token" accessToken ACCESS_TOKEN_EXPIRY,
      .set "refresh_token" refreshToken REFRESH_TOKEN_EXPIRY ])

/-- postRegister (part_006 controller): guard, parse, duplicate pre-check,
hash, create the user, then authenticateUser (session + tokens + cookies)
and redirect to the landing page. -/
def postRegister (reqUser : Option JwtPayload) (parsed : Except String RegData)
    (hash : String → String) (db : Db) (ip ua : Option String) (now : Nat)
    (secret : String) : Except JsError (Response × Db) :=
  match reqUser with
  | some _ =>
      .ok ({ flash := [], redirectTo := some "/", cookieOps := [], emailsSent := [] }, db)
  | none =>
    match parsed with
    | .error errorMessage =>
        .ok ({ flash := [("errors", errorMessage)], redirectTo := some "/register",
               cookieOps := [], emailsSent := [] }, db)
    | .ok data =>
      match getUserByEmail db data.email with
      | some _ =>
          .ok ({ flash := [("errors", "User Already Exists.")],
                 redirectTo := some "/register", cookieOps := [], emailsSent := [] }, db)
      | none =>
        match createUser db data.name data.email (hash data.password) with
        | .error e => .error (.storage e)
        | .ok result =>
          let authResult :=
            authenticateUser result.2 result.1 (some data.name) (some data.email)
              ip ua now secret
          .ok ({ flash := [], redirectTo := some "/",
                 cookieOps := authResult.2.2, emailsSent := [] }, authResult.2.1)

end Part006

/-! ## lect108_Merge_GAuth controllers (services come from part_006) -/

namespace Lect108

/-- postRegister (lect108 controller): as the part_006 one, but after
authenticateUser it sends a verification email, flashes a success message
and redirects to the verify-email page instead of the landing page. -/
def postRegister (reqUser : Option JwtPayload) (parsed : Except String RegData)
    (hash : String → String) (db : Db) (ip ua : Option String) (now : Nat)
    (secret : String) : Except JsError (Response × Db) :=
  match reqUser with
  | some _ =>
      .ok ({ flash := [], redirectTo := some "/", cookieOps := [], emailsSent := [] }, db)
  | none =>
    match parsed with
    | .error errorMessage =>
        .ok ({ flash := [("errors", errorMessage)], redirectTo := some "/register",
               cookieOps := [], emailsSent := [] }, db)
    | .ok data =>
      match getUserByEmail db data.email with
      | some _ =>
          .ok ({ flash := [("errors", "User Already Exists.")],
                 redirectTo := some "/register", cookieOps := [], emailsSent := [] }, db)
      | none =>
        match createUser db data.name data.email (hash data.password) with
        | .error e => .error (.storage e)
        | .ok result =>
          let authResult :=
            Part006.authenticateUser result.2 result.1 (some data.name)
              (some data.email) ip ua now secret
          .ok ({ flash :=
                   [("success",
                     "Verification link sent to your email. Please check your inbox for the 8-digit code.")],
                 redirectTo := some "/verify-email",
                 cookieOps := authResult.2.2,
                 emailsSent := [data.email] }, authResult.2.1)

/-- postLogin (lect108 controller): same failure branches as lect90; on
success it delegates session creation and cookie setting to
authenticateUser and redirects to the landing page. -/
def postLogin (reqUser : Option JwtPayload) (parsed : Except String LoginData)
    (argonVerify : String → String → Bool) (db : Db) (ip ua : Option String)
    (now : Nat) (secret : String) : Response × Db :=
  match reqUser with
  | some _ =>
      ({ flash := [], redirectTo := some "/", cookieOps := [], emailsSent := [] }, db)
  | none =>
    match parsed with
    | .error errorMessage =>
        ({ flash := [("errors", errorMessage)], redirectTo := some "/login",
           cookieOps := [], emailsSent := [] }, db)
    | .ok data =>
      match getUserByEmail db data.email with
      | none =>
          ({ flash := [("errors", "Invalid User or Password")],
             redirectTo := some "/login", cookieOps := [], emailsSent := [] }, db)
      | some user =>
        if argonVerify user.password data.password = false then
          ({ flash := [("errors", "Invalid User or Password")],
             redirectTo := some "/login", cookieOps := [], emailsSent := [] }, db)
        else
          let authResult :=
            Part006.authenticateUser db
              { id := user.id, name := some user.name, email := some user.email,
                isEmailValid := some user.isEmailValid }
              none none ip ua now secret
          ({ flash := [], redirectTo := some "/",
             cookieOps := authResult.2.2, emailsSent := [] }, authResult.2.1)

/-- logoutUser (lect108 controller, lines 163-169): textually identical to
the lect90 one, including the missing anonymous guard. -/
def logoutUser (reqUser : Option JwtPayload) (db : Db) :
    Except JsError (Response × Db) :=
  match reqUser with
  | none => .error .typeErrorNullAccess
  | some u =>
    let db1 :=
      match u.sessionId with
      | some sid => clearSession db sid
      | none => db
    .ok ({ flash := [], redirectTo := some "/login",
           cookieOps := [ .clear "access_token", .clear "refresh_token" ],
           emailsSent := [] }, db1)

end Lect108

/-! ## Derived predicates used in the claim statements -/

/-- The session named sid has been revoked: its row was deleted or its
validity flag is false. -/
def sessionRevoked (db : Db) (sid : Nat) : Bool :=
  match findSessionById db sid with
  | none => true
  | some s => !s.valid

/-- The access-token branch of the middleware does not authenticate: the
cookie is absent, or the token it holds fails verification. -/
def accessBranchFails (a : Option Jwt) (now : Nat) (secret : String) : Bool :=
  match a with
  | none => true
  | some t =>
    match jwtVerify t now secret with
    | .ok _ => false
    | .error _ => true

instance exceptDecEq {ε α : Type} [DecidableEq ε] [DecidableEq α] :
    DecidableEq (Except ε α) := fun x y =>
  match x, y with
  | .ok a, .ok b =>
      if h : a = b then .isTrue (by rw [h]) else .isFalse (by simp [h])
  | .ok _, .error _ => .isFalse (by simp)
  | .error _, .ok _ => .isFalse (by simp)
  | .error e, .error f =>
      if h : e = f then .isTrue (by rw [h]) else .isFalse (by simp [h])

theorem tryAccessToken_none (a : Option Jwt) (now : Nat) (secret : String)
    (h : accessBranchFails a now secret = true) :
    Lect90.tryAccessToken a now secret = none := by
  cases a with
  | none => rfl
  | some t =>
      cases hv : jwtVerify t now secret with
      | ok p =>
          simp only [accessBranchFails, hv] at h
          exact (Bool.false_ne_true h).elim
      | error e =>
          simp [Lect90.tryAccessToken, hv]

/-! ## Demonstration fixtures for the witnesses -/

/-- Demonstration store: one user Ada, one valid session (id 1) and one
revoked session (id 2), both owned by Ada. -/
def demoDb : Db :=
  { users :=
      [{ id := 1, name := "Ada", email := "ada@example.com",
         password := "hashed-pw", isEmailValid := false }],
    sessions :=
      [{ id := 1, userId := 1, valid := true, ip := none, userAgent := none },
       { id := 2, userId := 1, valid := false, ip := none, userAgent := none }],
    nextUserId := 2, nextSessionId := 3 }

/-- Claims of a demonstration access token for Ada bound to session 1. -/
def demoAccessPayload : JwtPayload :=
  { id := some 1, name := some "Ada", email := some "ada@example.com",
    isEmailValid := none, sessionId := some 1 }

/-- Claims of a demonstration refresh token naming the revoked session 2. -/
def demoRefreshPayload2 : JwtPayload :=
  { id := none, name := none, email := none, isEmailValid := none,
    sessionId := some 2 }

/-- Empty demonstration store. -/
def emptyDb : Db :=
  { users := [], sessions := [], nextUserId := 1, nextSessionId := 1 }

/-- Demonstration stand-in for the argon2 hash at the library boundary. -/
def demoHash (password : String) : String :=
  String.append "hash:" password

/-! ## Claim theorems -/

/-- Claim C1: for every inbound request whose access_token cookie holds a
token that verifies against the configured secret and is not expired, the
middleware sets the request identity to exactly the decoded claims of that
token and calls next, issuing no store operation and writing no response
cookie. -/
theorem access_token_hot_path (db : Db) (t : Jwt) (r : Option Jwt) (now : Nat)
    (secret : String) (p : JwtPayload) (h : jwtVerify t now secret = .ok p) :
    Lect90.verifyAuthentication db (some t) r now secret =
      { user := some p, cookieOps := [], storeOps := [], calledNext := true } := by
  simp [Lect90.verifyAuthentication, Lect90.tryAccessToken, h]

theorem access_token_hot_path_witness :
    jwtVerify { payload := demoAccessPayload, exp := 910, secret := "top-secret" }
        10 "top-secret" = .ok demoAccessPayload ∧
    Lect90.verifyAuthentication demoDb
        (some { payload := demoAccessPayload, exp := 910, secret := "top-secret" })
        none 10 "top-secret" =
      { user := some demoAccessPayload, cookieOps := [], storeOps := [],
        calledNext := true } :=
  ⟨by decide,
   access_token_hot_path demoDb
     { payload := demoAccessPayload, exp := 910, secret := "top-secret" }
     none 10 "top-secret" demoAccessPayload (by decide)⟩

/-- Claim C2: presenting a still-unexpired, validly-signed refresh token
that names a revoked session (row deleted or validity flag false), on a
request whose access-token branch does not authenticate, never yields an
identity: the refresh flow fails after the single session read, both
cookies are cleared and req.user is null. -/
theorem revoked_session_refresh_fails (db : Db) (a : Option Jwt) (rt : Jwt)
    (sid now : Nat) (secret : String)
    (hsid : rt.payload.sessionId = some sid)
    (hsig : rt.secret = secret) (hexp : now < rt.exp)
    (hrev : sessionRevoked db sid = true)
    (ha : accessBranchFails a now secret = true) :
    Lect90.verifyAuthentication db a (some rt) now secret =
      { user := none,
        cookieOps := [CookieOp.clear "access_token", CookieOp.clear "refresh_token"],
        storeOps := [StoreOp.readSession (some sid)], calledNext := true } := by
  have hv : jwtVerify rt now secret = .ok rt.payload := by
    unfold jwtVerify
    rw [hsig, if_neg (fun hcon => hcon rfl), if_neg (not_le.mpr hexp)]
  have hacc : Lect90.tryAccessToken a now secret = none :=
    tryAccessToken_none a now secret ha
  have hrt : Lect90.refreshTokens db rt now secret =
      (.error .invalidSession, [StoreOp.readSession (some sid)]) := by
    unfold Lect90.refreshTokens
    rw [hv]
    unfold sessionRevoked at hrev
    cases hfind : findSessionById db sid with
    | none => simp [hsid, hfind]
    | some s =>
        rw [hfind] at hrev
        simp only [Bool.not_eq_true] at hrev
        simp [hsid, hfind, hrev]
  simp [Lect90.verifyAuthentication, hacc, hrt]

theorem revoked_session_refresh_fails_witness :
    sessionRevoked demoDb 2 = true ∧
    accessBranchFails none 100 "top-secret" = true ∧
    Lect90.verifyAuthentication demoDb none
        (some { payload := demoRefreshPayload2, exp := 604900, secret := "top-secret" })
        100 "top-secret" =
      { user := none,
        cookieOps := [CookieOp.clear "access_token", CookieOp.clear "refresh_token"],
        storeOps := [StoreOp.readSession (some 2)], calledNext := true } :=
  ⟨by decide, by decide,
   revoked_session_refresh_fails demoDb none
     { payload := demoRefreshPayload2, exp := 604900, secret := "top-secret" }
     2 100 "top-secret" (by decide) (by decide) (by decide) (by decide) (by decide)⟩

/-- Claim C3 counterexample: with an invalid (expired) access_token cookie
present and no refresh_token cookie, the middleware leaves identity
anonymous but performs no cookie clearing, and likewise when both cookies
are absent.  This contradicts the claim that the previously-set cookies
are cleared on these paths. -/
theorem invalid_access_without_refresh_clears_nothing :
    (Lect90.verifyAuthentication demoDb
        (some { payload := demoAccessPayload, exp := 10, secret := "top-secret" })
        none 50 "top-secret").user = none ∧
    (Lect90.verifyAuthentication demoDb
        (some { payload := demoAccessPayload, exp := 10, secret := "top-secret" })
        none 50 "top-secret").cookieOps = [] ∧
    CookieOp.clear "access_token" ∉
      (Lect90.verifyAuthentication demoDb
        (some { payload := demoAccessPayload, exp := 10, secret := "top-secret" })
        none 50 "top-secret").cookieOps ∧
    (Lect90.verifyAuthentication demoDb none none 50 "top-secret").cookieOps = [] := by
  decide

/-- Claim C3 amended: when both cookies are absent, or an invalid access
token is present without a refresh token, the middleware sets identity to
anonymous and writes no cookie operation at all; both cookies are cleared
(with anonymous identity) only on the path where a refresh token is
present and fails. -/
theorem anonymous_paths_cookie_effects (db : Db) (a rt : Jwt) (now : Nat)
    (secret : String)
    (ha : accessBranchFails (some a) now secret = true)
    (hr : accessBranchFails (some rt) now secret = true) :
    Lect90.verifyAuthentication db none none now secret =
      { user := none, cookieOps := [], storeOps := [], calledNext := true } ∧
    Lect90.verifyAuthentication db (some a) none now secret =
      { user := none, cookieOps := [], storeOps := [], calledNext := true } ∧
    Lect90.verifyAuthentication db (some a) (some rt) now secret =
      { user := none,
        cookieOps := [CookieOp.clear "access_token", CookieOp.clear "refresh_token"],
        storeOps := [], calledNext := true } := by
  have hacc : Lect90.tryAccessToken (some a) now secret = none :=
    tryAccessToken_none (some a) now secret ha
  refine ⟨rfl, ?_, ?_⟩
  · simp [Lect90.verifyAuthentication, hacc]
  · cases hv : jwtVerify rt now secret with
    | ok p =>
        simp only [accessBranchFails, hv] at hr
        exact (Bool.false_ne_true hr).elim
    | error e =>
        have hrt : Lect90.refreshTokens db rt now secret =
            (.error (.tokenRejected e), []) := by
          simp [Lect90.refreshTokens, hv]
        simp [Lect90.verifyAuthentication, hacc, hrt]

theorem anonymous_paths_cookie_effects_witness :
    accessBranchFails
        (some { payload := demoAccessPayload, exp := 10, secret := "top-secret" })
        50 "top-secret" = true ∧
    accessBranchFails
        (some { payload := demoRefreshPayload2, exp := 20, secret := "top-secret" })
        50 "top-secret" = true ∧
    (Lect90.verifyAuthentication demoDb none none 50 "top-secret" =
      { user := none, cookieOps := [], storeOps := [], calledNext := true } ∧
    Lect90.verifyAuthentication demoDb
        (some { payload := demoAccessPayload, exp := 10, secret := "top-secret" })
        none 50 "top-secret" =
      { user := none, cookieOps := [], storeOps := [], calledNext := true } ∧
    Lect90.verifyAuthentication demoDb
        (some { payload := demoAccessPayload, exp := 10, secret := "top-secret" })
        (some { payload := demoRefreshPayload2, exp := 20, secret := "top-secret" })
        50 "top-secret" =
      { user := none,
        cookieOps := [CookieOp.clear "access_token", CookieOp.clear "refresh_token"],
        storeOps := [], calledNext := true }) :=
  ⟨by decide, by decide,
   anonymous_paths_cookie_effects demoDb
     { payload := demoAccessPayload, exp := 10, secret := "top-secret" }
     { payload := demoRefreshPayload2, exp := 20, secret := "top-secret" }
     50 "top-secret" (by decide) (by decide)⟩

/-- Claim C4 (code bug in every version of the handler): a logout request
arriving with anonymous identity does not produce the required no-op
redirect to the login page; the handler dereferences req.user.sessionId on
null and throws a TypeError before any revocation or response, whatever
the state of the store. -/
theorem logout_anonymous_throws (db : Db) :
    Lect108.logoutUser none db = .error .typeErrorNullAccess ∧
    Lect90.logoutUser none db = .error .typeErrorNullAccess :=
  ⟨rfl, rfl⟩

/-- Claim C5 counterexample: in the lect90 flow, a valid registration with
a fresh email creates the user row but no session, sets no cookie, and
redirects to the login page for a separate credential entry, contradicting
the claimed auto-login and landing-page redirect. -/
theorem lect90_register_no_auto_login :
    Lect90.postRegister none
        (.ok { name := "Ada", email := "ada@example.com", password := "correct-horse" })
        demoHash emptyDb =
      .ok ({ flash := [], redirectTo := some "/login", cookieOps := [],
             emailsSent := [] },
        { users :=
            [{ id := 1, name := "Ada", email := "ada@example.com",
               password := "hash:correct-horse", isEmailValid := false }],
          sessions := [], nextUserId := 2, nextSessionId := 1 }) := by
  decide

/-- Claim C5 amended: auto-login after registration holds for the later
flows but not the lect90 one.  The part_006 handler hashes the password,
creates the User, performs the same session-creation, token-issuance and
cookie-setting sequence as login through authenticateUser, and redirects
to the landing page; the lect108 handler does the same but redirects to
the email-verification page; the lect90 handler performs no auto-login and
redirects to the login page. -/
theorem register_auto_login (db : Db) (d : RegData) (hash : String → String)
    (ip ua : Option String) (now : Nat) (secret : String)
    (hfresh : getUserByEmail db d.email = none) :
    Part006.postRegister none (.ok d) hash db ip ua now secret =
      .ok ({ flash := [], redirectTo := some "/",
             cookieOps :=
               [ CookieOp.set "access_token"
                   (jwtSign
                     { id := some db.nextUserId, name := some d.name,
                       email := some d.email, isEmailValid := none,
                       sessionId := some db.nextSessionId }
                     (ACCESS_TOKEN_EXPIRY / MILLISECONDS_PER_SECOND) now secret)
                   ACCESS_TOKEN_EXPIRY,
                 CookieOp.set "refresh_token"
                   (jwtSign
                     { id := none, name := none, email := none,
                       isEmailValid := none, sessionId := some db.nextSessionId }
                     (REFRESH_TOKEN_EXPIRY / MILLISECONDS_PER_SECOND) now secret)
                   REFRESH_TOKEN_EXPIRY ],
             emailsSent := [] },
        { users := db.users ++
            [{ id := db.nextUserId, name := d.name, email := d.email,
               password := hash d.password, isEmailValid := false }],
          sessions := db.sessions ++
            [{ id := db.nextSessionId, userId := db.nextUserId, valid := true,
               ip := ip, userAgent := ua }],
          nextUserId := db.nextUserId + 1,
          nextSessionId := db.nextSessionId + 1 }) ∧
    Lect108.postRegister none (.ok d) hash db ip ua now secret =
      .ok ({ flash :=
               [("success",
                 "Verification link sent to your email. Please check your inbox for the 8-digit code.")],
             redirectTo := some "/verify-email",
             cookieOps :=
               [ CookieOp.set "access_token"
                   (jwtSign
                     { id := some db.nextUserId, name := some d.name,
                       email := some d.email, isEmailValid := none,
                       sessionId := some db.nextSessionId }
                     (ACCESS_TOKEN_EXPIRY / MILLISECONDS_PER_SECOND) now secret)
                   ACCESS_TOKEN_EXPIRY,
                 CookieOp.set "refresh_token"
                   (jwtSign
                     { id := none, name := none, email := none,
                       isEmailValid := none, sessionId := some db.nextSessionId }
                     (REFRESH_TOKEN_EXPIRY / MILLISECONDS_PER_SECOND) now secret)
                   REFRESH_TOKEN_EXPIRY ],
             emailsSent := [d.email] },
        { users := db.users ++
            [{ id := db.nextUserId, name := d.name, email := d.email,
               password := hash d.password, isEmailValid := false }],
          sessions := db.sessions ++
            [{ id := db.nextSessionId, userId := db.nextUserId, valid := true,
               ip := ip, userAgent := ua }],
          nextUserId := db.nextUserId + 1,
          nextSessionId := db.nextSessionId + 1 }) := by
  constructor
  · simp [Part006.postRegister, createUser, hfresh, Part006.authenticateUser,
      createSession, Part006.createAccessToken, Part006.createRefreshToken, jsOr]
  · simp [Lect108.postRegister, createUser, hfresh, Part006.authenticateUser,
      createSession, Part006.createAccessToken, Part006.createRefreshToken, jsOr]

theorem register_auto_login_witness :
    getUserByEmail emptyDb "ada@example.com" = none ∧
    (Part006.postRegister none
        (.ok { name := "Ada", email := "ada@example.com", password := "correct-horse" })
        demoHash emptyDb none none 0 "top-secret" =
      .ok ({ flash := [], redirectTo := some "/",
             cookieOps :=
               [ CookieOp.set "access_token"
                   (jwtSign
                     { id := some 1, name := some "Ada",
                       email := some "ada@example.com", isEmailValid := none,
                       sessionId := some 1 } 900 0 "top-secret")
                   ACCESS_TOKEN_EXPIRY,
                 CookieOp.set "refresh_token"
                   (jwtSign
                     { id := none, name := none, email := none,
                       isEmailValid := none, sessionId := some 1 }
                     604800 0 "top-secret")
                   REFRESH_TOKEN_EXPIRY ],
             emailsSent := [] },
        { users :=
            [{ id := 1, name := "Ada", email := "ada@example.com",
               password := demoHash "correct-horse", isEmailValid := false }],
          sessions :=
            [{ id := 1, userId := 1, valid := true, ip := none, userAgent := none }],
          nextUserId := 2, nextSessionId := 2 }) ∧
    Lect108.postRegister none
        (.ok { name := "Ada", email := "ada@example.com", password := "correct-horse" })
        demoHash emptyDb none none 0 "top-secret" =
      .ok ({ flash :=
               [("success",
                 "Verification link sent to your email. Please check your inbox for the 8-digit code.")],
             redirectTo := some "/verify-email",
             cookieOps :=
               [ CookieOp.set "access_token"
                   (jwtSign
                     { id := some 1, name := some "Ada",
                       email := some "ada@example.com", isEmailValid := none,
                       sessionId := some 1 } 900 0 "top-secret")
                   ACCESS_TOKEN_EXPIRY,
                 CookieOp.set "refresh_token"
                   (jwtSign
                     { id := none, name := none, email := none,
                       isEmailValid := none, sessionId := some 1 }
                     604800 0 "top-secret")
                   REFRESH_TOKEN_EXPIRY ],
             emailsSent := ["ada@example.com"] },
        { users :=
            [{ id := 1, name := "Ada", email := "ada@example.com",
               password := demoHash "correct-horse", isEmailValid := false }],
          sessions :=
            [{ id := 1, userId := 1, valid := true, ip := none, userAgent := none }],
          nextUserId := 2, nextSessionId := 2 })) :=
  ⟨rfl,
   register_auto_login emptyDb
     { name := "Ada", email := "ada@example.com", password := "correct-horse" }
     demoHash none none 0 "top-secret" rfl⟩

/-- Claim C6 counterexample: creating a user with an email that is already
present surfaces the storage driver duplicate-key fault itself (the
ER_DUP_ENTRY on the unique index of users.email), not a code-level typed
DuplicateEmail error: the service rethrows the insert result unchanged and
contains no such error type and no mapping. -/
theorem createUser_duplicate_is_driver_fault :
    createUser demoDb "Bob" "ada@example.com" "hash:pw" =
      .error (DbError.duplicateEntry "users.email_unique") := by
  decide

/-- Demanded outcome of createUser over a store with unique emails: a
duplicate insert is rejected with the driver fault exactly when the email
is already present, and a successful insert preserves email uniqueness. -/
def createUserUniqueOutcome (db : Db) (name email password : String) : Prop :=
  match createUser db name email password with
  | .error (.duplicateEntry _) => (getUserByEmail db email).isSome = true
  | .ok result =>
      getUserByEmail db email = none ∧
      (result.2.users.map (fun u => u.email)).Nodup

/-- Claim C6 amended: the unique index makes createUser fail atomically on
any duplicate email, including one racing past the findByEmail pre-check,
and the store never ends up holding two rows with the same email; the
failure however surfaces as the generic storage-driver duplicate-key
fault, not as a typed DuplicateEmail error. -/
theorem createUser_enforces_uniqueness (db : Db) (name email password : String)
    (h : (db.users.map (fun u => u.email)).Nodup) :
    createUserUniqueOutcome db name email password := by
  unfold createUserUniqueOutcome
  cases hfind : getUserByEmail db email with
  | some u => simp [createUser, hfind]
  | none =>
      simp only [createUser, hfind]
      refine ⟨trivial, ?_⟩
      have hmem : email ∉ db.users.map (fun u => u.email) := by
        intro hm
        rcases List.mem_map.mp hm with ⟨u, hu, he⟩
        have hnone := List.find?_eq_none.mp hfind u hu
        simp [he] at hnone
      simp [List.nodup_append, h, hmem]

theorem createUser_enforces_uniqueness_witness :
    (demoDb.users.map (fun u => u.email)).Nodup ∧
    createUserUniqueOutcome demoDb "Bob" "ada@example.com" "hash:pw" :=
  ⟨by decide,
   createUser_enforces_uniqueness demoDb "Bob" "ada@example.com" "hash:pw"
     (by decide)⟩

theorem lect90_refresh_trace_reads (db : Db) (rt : Jwt) (now : Nat)
    (secret : String) :
    ((Lect90.refreshTokens db rt now secret).2.all StoreOp.isRead) = true ∧
    applyOps db (Lect90.refreshTokens db rt now secret).2 = db := by
  unfold Lect90.refreshTokens
  cases hJ : jwtVerify rt now secret with
  | error e => exact ⟨rfl, rfl⟩
  | ok p =>
    dsimp only
    cases hs : p.sessionId with
    | none => exact ⟨rfl, rfl⟩
    | some sid =>
      dsimp only
      cases hf : findSessionById db sid with
      | none => exact ⟨rfl, rfl⟩
      | some s =>
        dsimp only
        cases hv : s.valid with
        | false => exact ⟨rfl, rfl⟩
        | true =>
          try dsimp only
          cases hu : findUserById db s.userId with
          | none => exact ⟨rfl, rfl⟩
          | some u => exact ⟨rfl, rfl⟩

theorem part006_refresh_trace_reads (db : Db) (rt : Jwt) (now : Nat)
    (secret : String) :
    ((Part006.refreshTokens db rt now secret).2.all StoreOp.isRead) = true ∧
    applyOps db (Part006.refreshTokens db rt now secret).2 = db := by
  unfold Part006.refreshTokens
  cases hJ : jwtVerify rt now secret with
  | error e => exact ⟨rfl, rfl⟩
  | ok p =>
    dsimp only
    cases hs : p.sessionId with
    | none => exact ⟨rfl, rfl⟩
    | some sid =>
      dsimp only
      cases hf : findSessionById db sid with
      | none => exact ⟨rfl, rfl⟩
      | some s =>
        dsimp only
        cases hv : s.valid with
        | false => exact ⟨rfl, rfl⟩
        | true =>
          try dsimp only
          cases hu : findUserById db s.userId with
          | none => exact ⟨rfl, rfl⟩
          | some u => exact ⟨rfl, rfl⟩

/-- Claim C7: a successful refresh issues only reads — the session lookup
followed by the user lookup — and no insert, delete or update; replaying
its operation trace over the store is the identity, so every stored row,
the Session row included, is identical before and after the refresh.  The
frame fact holds of the lect90 and the part_006 version alike. -/
theorem refresh_reads_only (db : Db) (rt : Jwt) (now : Nat) (secret : String)
    (res : Jwt × Jwt × JwtPayload)
    (h : (Lect90.refreshTokens db rt now secret).1 = .ok res) :
    ((Lect90.refreshTokens db rt now secret).2.all StoreOp.isRead) = true ∧
    applyOps db (Lect90.refreshTokens db rt now secret).2 = db ∧
    (∃ sid uid, (Lect90.refreshTokens db rt now secret).2 =
      [StoreOp.readSession (some sid), StoreOp.readUserById uid]) ∧
    ((Part006.refreshTokens db rt now secret).2.all StoreOp.isRead) = true ∧
    applyOps db (Part006.refreshTokens db rt now secret).2 = db := by
  refine ⟨(lect90_refresh_trace_reads db rt now secret).1,
    (lect90_refresh_trace_reads db rt now secret).2, ?_,
    (part006_refresh_trace_reads db rt now secret).1,
    (part006_refresh_trace_reads db rt now secret).2⟩
  unfold Lect90.refreshTokens at h ⊢
  cases hJ : jwtVerify rt now secret with
  | error e => rw [hJ] at h; simp at h
  | ok p =>
    rw [hJ] at h
    dsimp only at h ⊢
    cases hs : p.sessionId with
    | none => rw [hs] at h; simp at h
    | some sid =>
      rw [hs] at h
      dsimp only at h ⊢
      cases hf : findSessionById db sid with
      | none => rw [hf] at h; simp at h
      | some s =>
        rw [hf] at h
        dsimp only at h ⊢
        cases hv : s.valid with
        | false => rw [hv] at h; simp at h
        | true =>
          rw [hv] at h
          try dsimp only at h ⊢
          cases hu : findUserById db s.userId with
          | none => rw [hu] at h; simp at h
          | some u => exact ⟨sid, s.userId, rfl⟩

theorem refresh_reads_only_witness :
    (Lect90.refreshTokens demoDb
        { payload :=
            { id := none, name := none, email := none, isEmailValid := none,
              sessionId := some 1 },
          exp := 700000, secret := "top-secret" } 100 "top-secret").1 =
      .ok
        ({ payload := demoAccessPayload, exp := 1000, secret := "top-secret" },
         { payload :=
             { id := none, name := none, email := none, isEmailValid := none,
               sessionId := some 1 },
           exp := 604900, secret := "top-secret" },
         demoAccessPayload) ∧
    (((Lect90.refreshTokens demoDb
        { payload :=
            { id := none, name := none, email := none, isEmailValid := none,
              sessionId := some 1 },
          exp := 700000, secret := "top-secret" } 100 "top-secret").2.all
        StoreOp.isRead) = true ∧
      applyOps demoDb (Lect90.refreshTokens demoDb
        { payload :=
            { id := none, name := none, email := none, isEmailValid := none,
              sessionId := some 1 },
          exp := 700000, secret := "top-secret" } 100 "top-secret").2 = demoDb ∧
      (∃ sid uid, (Lect90.refreshTokens demoDb
        { payload :=
            { id := none, name := none, email := none, isEmailValid := none,
              sessionId := some 1 },
          exp := 700000, secret := "top-secret" } 100 "top-secret").2 =
        [StoreOp.readSession (some sid), StoreOp.readUserById uid]) ∧
      ((Part006.refreshTokens demoDb
        { payload :=
            { id := none, name := none, email := none, isEmailValid := none,
              sessionId := some 1 },
          exp := 700000, secret := "top-secret" } 100 "top-secret").2.all
        StoreOp.isRead) = true ∧
      applyOps demoDb (Part006.refreshTokens demoDb
        { payload :=
            { id := none, name := none, email := none, isEmailValid := none,
              sessionId := some 1 },
          exp := 700000, secret := "top-secret" } 100 "top-secret").2 = demoDb) :=
  ⟨by decide,
   refresh_reads_only demoDb
     { payload :=
         { id := none, name := none, email := none, isEmailValid := none,
           sessionId := some 1 },
       exp := 700000, secret := "top-secret" } 100 "top-secret"
     ({ payload := demoAccessPayload, exp := 1000, secret := "top-secret" },
      { payload :=
          { id := none, name := none, email := none, isEmailValid := none,
            sessionId := some 1 },
        exp := 604900, secret := "top-secret" },
      demoAccessPayload)
     (by decide)⟩

/-- Claim C8: the access-token expiry constant is 900000 ms and the
refresh-token one 604800000 ms; dividing by MILLISECONDS_PER_SECOND they
reach the signer as 900 and 604800 seconds, so every issued access token
expires exactly now + 15 minutes and every refresh token exactly now + 7
days, in each version of the signer; and the cookie-setting sequence sets
the access_token and refresh_token cookies with max-ages equal to the two
constants. -/
theorem token_expiry_constants :
    ACCESS_TOKEN_EXPIRY = 900000 ∧
    REFRESH_TOKEN_EXPIRY = 604800000 ∧
    ACCESS_TOKEN_EXPIRY / MILLISECONDS_PER_SECOND = 900 ∧
    REFRESH_TOKEN_EXPIRY / MILLISECONDS_PER_SECOND = 604800 ∧
    (∀ id name email sid now secret,
      (Lect90.createAccessToken id name email sid now secret).exp = now + 900) ∧
    (∀ sid now secret,
      (Lect90.createRefreshToken sid now secret).exp = now + 604800) ∧
    (∀ id name email iev sid now secret,
      (Part006.createAccessToken id name email iev sid now secret).exp = now + 900) ∧
    (∀ sid now secret,
      (Part006.createRefreshToken sid now secret).exp = now + 604800) ∧
    (∀ db user name email ip ua now secret,
      ∃ aTok rTok,
        (Part006.authenticateUser db user name email ip ua now secret).2.2 =
          [CookieOp.set "access_token" aTok ACCESS_TOKEN_EXPIRY,
           CookieOp.set "refresh_token" rTok REFRESH_TOKEN_EXPIRY] ∧
        aTok.exp = now + 900 ∧ rTok.exp = now + 604800) := by
  refine ⟨rfl, rfl, rfl, rfl, ?_, ?_, ?_, ?_, ?_⟩
  · intro id name email sid now secret; rfl
  · intro sid now secret; rfl
  · intro id name email iev sid now secret; rfl
  · intro sid now secret; rfl
  · intro db user name email ip ua now secret
    exact ⟨_, _, rfl, rfl, rfl⟩

/-- Claim C9: the two failed-login outcomes — unknown email, and known
email with a wrong password — are observably identical: the same single
flash message, the same redirect to the login page, no cookie set, no
email sent, and an unchanged store, in the lect90 and the lect108 handler
alike. -/
theorem login_failures_indistinguishable (db : Db) (b1 b2 : LoginData)
    (u : UserRow) (argonVerify : String → String → Bool) (ip ua : Option String)
    (now : Nat) (secret : String)
    (h1 : getUserByEmail db b1.email = none)
    (h2 : getUserByEmail db b2.email = some u)
    (h3 : argonVerify u.password b2.password = false) :
    Lect90.postLogin none (.ok b1) argonVerify db ip ua now secret =
      Lect90.postLogin none (.ok b2) argonVerify db ip ua now secret ∧
    Lect90.postLogin none (.ok b1) argonVerify db ip ua now secret =
      ({ flash := [("errors", "Invalid User or Password")],
         redirectTo := some "/login", cookieOps := [], emailsSent := [] }, db) ∧
    Lect108.postLogin none (.ok b1) argonVerify db ip ua now secret =
      Lect108.postLogin none (.ok b2) argonVerify db ip ua now secret := by
  refine ⟨?_, ?_, ?_⟩
  · simp [Lect90.postLogin, h1, h2, h3]
  · simp [Lect90.postLogin, h1]
  · simp [Lect108.postLogin, h1, h2, h3]

theorem login_failures_indistinguishable_witness :
    getUserByEmail demoDb "bob@example.com" = none ∧
    getUserByEmail demoDb "ada@example.com" =
      some { id := 1, name := "Ada", email := "ada@example.com",
             password := "hashed-pw", isEmailValid := false } ∧
    (fun (_ _ : String) => false) "hashed-pw" "wrong" = false ∧
    (Lect90.postLogin none (.ok { email := "bob@example.com", password := "12345" })
        (fun _ _ => false) demoDb none none 0 "top-secret" =
      Lect90.postLogin none (.ok { email := "ada@example.com", password := "wrong" })
        (fun _ _ => false) demoDb none none 0 "top-secret" ∧
    Lect90.postLogin none (.ok { email := "bob@example.com", password := "12345" })
        (fun _ _ => false) demoDb none none 0 "top-secret" =
      ({ flash := [("errors", "Invalid User or Password")],
         redirectTo := some "/login", cookieOps := [], emailsSent := [] }, demoDb) ∧
    Lect108.postLogin none (.ok { email := "bob@example.com", password := "12345" })
        (fun _ _ => false) demoDb none none 0 "top-secret" =
      Lect108.postLogin none (.ok { email := "ada@example.com", password := "wrong" })
        (fun _ _ => false) demoDb none none 0 "top-secret") :=
  ⟨rfl, rfl, rfl,
   login_failures_indistinguishable demoDb
     { email := "bob@example.com", password := "12345" }
     { email := "ada@example.com", password := "wrong" }
     { id := 1, name := "Ada", email := "ada@example.com",
       password := "hashed-pw", isEmailValid := false }
     (fun _ _ => false) none none 0 "top-secret" rfl rfl rfl⟩

/-- Claim C10: access and refresh tokens are signed with the same secret
and carry no kind tag, so a validly-signed, unexpired refresh token placed
in the access_token cookie is accepted on the hot path: the middleware
sets the identity to its claims — a bag holding only sessionId, with no
user id, name or email — with no store access and no cookie written. -/
theorem refresh_token_accepted_as_access (db : Db) (r : Option Jwt)
    (sid mintTime now : Nat) (secret : String)
    (h : now < mintTime + REFRESH_TOKEN_EXPIRY / MILLISECONDS_PER_SECOND) :
    Lect90.verifyAuthentication db
        (some (Lect90.createRefreshToken sid mintTime secret)) r now secret =
      { user := some
          { id := none, name := none, email := none, isEmailValid := none,
            sessionId := some sid },
        cookieOps := [], storeOps := [], calledNext := true } := by
  have hv : jwtVerify (Lect90.createRefreshToken sid mintTime secret) now secret =
      .ok { id := none, name := none, email := none, isEmailValid := none,
            sessionId := some sid } := by
    unfold jwtVerify Lect90.createRefreshToken jwtSign
    rw [if_neg (fun hcon => hcon rfl), if_neg (not_le.mpr h)]
  simp [Lect90.verifyAuthentication, Lect90.tryAccessToken, hv]

theorem refresh_token_accepted_as_access_witness :
    (100 < 0 + REFRESH_TOKEN_EXPIRY / MILLISECONDS_PER_SECOND) ∧
    Lect90.verifyAuthentication demoDb
        (some (Lect90.createRefreshToken 7 0 "top-secret")) none 100 "top-secret" =
      { user := some
          { id := none, name := none, email := none, isEmailValid := none,
            sessionId := some 7 },
        cookieOps := [], storeOps := [], calledNext := true } :=
  ⟨by decide,
   refresh_token_accepted_as_access demoDb none 7 0 100 "top-secret" (by decide)⟩

end HybridAuth
